import Mathlib

/-!
Shallow embedding of the input-normalization and prompt-assembly pipeline of
the AI-Chemist application (src/app.py), together with theorems settling the
behavioural claims about it.

Modelling conventions:
* The generation backend (the `genai` model object) is an oracle parameter of
  type `Backend`: a function from the shape of the request submitted to either
  a response or a raised-error message.
* An uploaded image file is modelled by the outcome of decoding it
  (`Image.open`): either a decoded handle or a decode-failure message.
* An uploaded PDF file is modelled by the outcome of parsing it (`PdfReader`):
  either the list of per-page `extract_text()` results (`none` when a page
  yields no extractable text) or a parse-failure message.
* Raised Python exceptions are `Except.error msg` where `msg` is `str(e)`.
* The Streamlit script run is `run_app`: the input-collection section
  (app.py lines 121-141, outside any try block) followed by the generate
  button handler (lines 144-161, whose body is wrapped in try/except).
-/

namespace AIChemist

/-- Opaque decoded image handle (the PIL image object). -/
structure Img where
  id : Nat
deriving DecidableEq

/-- An uploaded image file, modelled by its decode outcome (`Image.open`). -/
abbrev ImgFile := Except String Img

/-- An uploaded PDF file, modelled by its parse outcome (`PdfReader`):
the list of per-page `extract_text()` results, `none` for a page with no
extractable text. -/
abbrev PdfFile := Except String (List (Option String))

/-- A backend response object; only its `text` field is read by the code. -/
structure GenResponse where
  text : String
deriving DecidableEq

/-- The shape of a single `model.generate_content` call: either the
multimodal list `[input_text, image]` or a lone prompt string. -/
inductive BackendCall
  | multimodal (input_text : String) (image : Img)
  | textOnly (input_text : String)
deriving DecidableEq

/-- The generation backend as an oracle: each submitted call either returns a
response or raises (transport/auth/backend error with message). -/
abbrev Backend := BackendCall → Except String GenResponse

/-- app.py line 24: the f-string merging the prompt with the PDF text. -/
def combined_input (input_text pdf_content : String) : String :=
  input_text ++ "\n\nReference Document Content:\n" ++ pdf_content

/-- app.py lines 21-27: the call-shape selection of `get_gemini_response`.
`if image:` a decoded PIL handle is always truthy and `None` is falsy;
`elif pdf_content:` a string is truthy exactly when non-empty, `None` falsy. -/
def gemini_call (input_text : String) (pdf_content : Option String)
    (image : Option Img) : BackendCall :=
  match image with
  | some img => BackendCall.multimodal input_text img
  | none =>
    match pdf_content with
    | some s =>
      if s = "" then BackendCall.textOnly input_text
      else BackendCall.textOnly (combined_input input_text s)
    | none => BackendCall.textOnly input_text

/-- app.py lines 19-28: `get_gemini_response` issues the one selected call to
the model and returns `response.text`. -/
def get_gemini_response (model : Backend) (input_text : String)
    (pdf_content : Option String) (image : Option Img) : Except String String :=
  (model (gemini_call input_text pdf_content image)).map GenResponse.text

/-- app.py lines 31-36: `input_image_setup` decodes the uploaded file or
raises `FileNotFoundError("No file uploaded")` when none was supplied. -/
def input_image_setup (uploaded_file : Option ImgFile) : Except String Img :=
  match uploaded_file with
  | some f => f
  | none => Except.error "No file uploaded"

/-- app.py lines 39-45: `read_pdf_content` parses the PDF and concatenates
`page.extract_text() or ""` over the pages in order, starting from `""`. -/
def read_pdf_content (uploaded_file : PdfFile) : Except String String :=
  match uploaded_file with
  | Except.error e => Except.error e
  | Except.ok pages =>
      Except.ok (pages.foldl (fun text page => text ++ page.getD "") "")

/-- app.py lines 49-68: the fixed instruction template. -/
def CHEM_PROMPT : String :=
  "\nYou are an expert AI Chemist assistant. Analyze the input and provide detailed chemical solutions considering:\n\nFor Experimental Design:\n1. Suggest optimal reaction conditions (temperature, pressure, catalysts)\n2. Recommend safety precautions\n3. Provide alternative synthesis routes\n\nFor Material Analysis:\n1. Identify key chemical properties\n2. Suggest characterization techniques\n3. Predict material behavior under different conditions\n\nFor Drug Discovery:\n1. Analyze target interactions\n2. Suggest potential analogs\n3. Predict ADMET properties\n\nFormat output with clear sections using Markdown. Highlight critical values in **bold**.\n"

/-- app.py line 147: `full_prompt = f"{CHEM_PROMPT}\n\nUser Input: {user_input}"`. -/
def full_prompt (user_input : String) : String :=
  CHEM_PROMPT ++ "\n\nUser Input: " ++ user_input

/-- app.py line 119: the three input modalities of the radio selector. -/
inductive InputType
  | text
  | image
  | pdf
deriving DecidableEq

/-- app.py lines 121-136: the input-collection section, run before the button
handler and OUTSIDE the try/except. Variables start as `user_input = ""`,
`pdf_content = ""`, `image = None`; the chosen modality overwrites one of
them. Note the `if uploaded_image:` and `if uploaded_pdf:` guards: with no
file attached, nothing is loaded and no error is raised here. An exception
raised by `input_image_setup` or `read_pdf_content` here is uncaught. -/
def collect_input (input_type : InputType) (text_area : String)
    (uploaded_image : Option ImgFile) (uploaded_pdf : Option PdfFile) :
    Except String (String × String × Option Img) :=
  match input_type with
  | InputType.text => Except.ok (text_area, "", none)
  | InputType.image =>
    match uploaded_image with
    | none => Except.ok ("", "", none)
    | some f =>
      match input_image_setup (some f) with
      | Except.error e => Except.error e
      | Except.ok img => Except.ok ("", "", some img)
  | InputType.pdf =>
    match uploaded_pdf with
    | none => Except.ok ("", "", none)
    | some f =>
      match read_pdf_content f with
      | Except.error e => Except.error e
      | Except.ok txt => Except.ok ("", txt, none)

/-- What the button handler displays: either the rendered solution
(`st.markdown(response)`) or the error banner (`st.error(...)`). -/
inductive Displayed
  | solution (text : String)
  | errorMsg (msg : String)
deriving DecidableEq

/-- The single backend call submitted by the generate handler for the given
collected inputs (app.py lines 149-154 feed `get_gemini_response`, which
submits exactly `gemini_call` of its arguments). -/
def handler_call (input_type : InputType) (user_input pdf_content : String)
    (image : Option Img) : BackendCall :=
  match input_type with
  | InputType.image => gemini_call (full_prompt user_input) none image
  | InputType.pdf => gemini_call (full_prompt user_input) (some pdf_content) none
  | InputType.text => gemini_call (full_prompt user_input) none none

/-- The list of backend calls the generate handler performs in one run:
always exactly the one selected call (no retry). -/
def handler_calls (input_type : InputType) (user_input pdf_content : String)
    (image : Option Img) : List BackendCall :=
  [handler_call input_type user_input pdf_content image]

/-- app.py lines 144-161: the generate button handler. Inside try/except it
assembles `full_prompt`, dispatches on the modality, and displays the
response; `except Exception as e` displays `f"⚠️ Error: {str(e)}"`. -/
def generate_handler (model : Backend) (input_type : InputType)
    (user_input pdf_content : String) (image : Option Img) : Displayed :=
  let result :=
    match input_type with
    | InputType.image =>
        get_gemini_response model (full_prompt user_input) none image
    | InputType.pdf =>
        get_gemini_response model (full_prompt user_input) (some pdf_content) none
    | InputType.text =>
        get_gemini_response model (full_prompt user_input) none none
  match result with
  | Except.ok r => Displayed.solution r
  | Except.error e => Displayed.errorMsg ("⚠️ Error: " ++ e)

/-- One full script run on a generate click: input collection (uncaught on
error) followed by the button handler. `temp` and `max_tokens` are the two
Advanced Settings values collected at app.py lines 139-141; the handler
never reads them. `Except.error` is an exception escaping the script. -/
def run_app (model : Backend) (input_type : InputType) (text_area : String)
    (uploaded_image : Option ImgFile) (uploaded_pdf : Option PdfFile)
    (temp : Rat) (max_tokens : Nat) : Except String Displayed :=
  match collect_input input_type text_area uploaded_image uploaded_pdf with
  | Except.error e => Except.error e
  | Except.ok (user_input, pdf_content, image) =>
      Except.ok (generate_handler model input_type user_input pdf_content image)

/-- The backend calls submitted during one full script run. -/
def run_calls (input_type : InputType) (text_area : String)
    (uploaded_image : Option ImgFile) (uploaded_pdf : Option PdfFile)
    (temp : Rat) (max_tokens : Nat) : List BackendCall :=
  match collect_input input_type text_area uploaded_image uploaded_pdf with
  | Except.error _ => []
  | Except.ok (user_input, pdf_content, image) =>
      handler_calls input_type user_input pdf_content image

/-- A backend that always answers with the text "ok". -/
def constBackend : Backend := fun _ => Except.ok ⟨"ok"⟩

/-- A backend that always raises with message "boom". -/
def failBackend : Backend := fun _ => Except.error "boom"

/-- Folding the page-concatenation step over pages with no extractable text
leaves the accumulator unchanged. -/
theorem foldl_replicate_none (n : Nat) (acc : String) :
    (List.replicate n (none : Option String)).foldl
      (fun text page => text ++ page.getD "") acc = acc := by
  induction n generalizing acc with
  | zero => rfl
  | succ k ih => simp [List.replicate_succ, ih]

/-- Claim C1. The claim says: with Image modality selected and no file
attached, the run fails with the missing-input error of the image loader
before any backend call. The code contradicts this: `input_image_setup`
does raise "No file uploaded" on a missing file, but its caller guards the
call with `if uploaded_image:` (app.py line 129), so with no file attached
the image stays `None` and the handler submits a text-only backend call
with the bare prompt, which succeeds. This theorem evaluates the run at the
failing input: the dead missing-input error exists, yet the run performs
one text-only backend call and displays its answer. -/
theorem image_missing_file_still_calls_backend :
    AIChemist.input_image_setup none = Except.error "No file uploaded" ∧
    AIChemist.run_calls AIChemist.InputType.image "" none none 0.7 500 =
      [AIChemist.BackendCall.textOnly (AIChemist.full_prompt "")] ∧
    AIChemist.run_app AIChemist.constBackend AIChemist.InputType.image ""
        none none 0.7 500 =
      Except.ok (AIChemist.Displayed.solution "ok") :=
  ⟨rfl, rfl, rfl⟩

/-- Claim C2. `get_gemini_response` submits exactly the one call selected by
`gemini_call` and selects among three shapes: a truthy image handle gives
the multimodal call with the prompt and the image; otherwise truthy
(non-empty) document text gives a text-only call with the document text
merged into the prompt; otherwise a text-only call with the prompt alone. -/
theorem gemini_call_shapes (model : AIChemist.Backend) (input_text : String)
    (pdf_content : Option String) (image : Option AIChemist.Img) :
    AIChemist.get_gemini_response model input_text pdf_content image =
      (model (AIChemist.gemini_call input_text pdf_content image)).map
        AIChemist.GenResponse.text ∧
    (∀ img, image = some img →
      AIChemist.gemini_call input_text pdf_content image =
        AIChemist.BackendCall.multimodal input_text img) ∧
    (∀ s, image = none → pdf_content = some s → s ≠ "" →
      AIChemist.gemini_call input_text pdf_content image =
        AIChemist.BackendCall.textOnly
          (AIChemist.combined_input input_text s)) ∧
    (image = none → pdf_content = none ∨ pdf_content = some "" →
      AIChemist.gemini_call input_text pdf_content image =
        AIChemist.BackendCall.textOnly input_text) := by
  refine ⟨rfl, ?_, ?_, ?_⟩
  · rintro img rfl
    rfl
  · rintro s rfl rfl hs
    simp [AIChemist.gemini_call, hs]
  · rintro rfl (rfl | rfl) <;> rfl

/-- Witness for C2 at a concrete input: with an image handle present the
multimodal shape is selected. -/
theorem gemini_call_shapes_witness :
    AIChemist.gemini_call "p" none (some ⟨0⟩) =
      AIChemist.BackendCall.multimodal "p" ⟨0⟩ :=
  (gemini_call_shapes AIChemist.constBackend "p" none (some ⟨0⟩)).2.1 ⟨0⟩ rfl

/-- Claim C3. For every successfully parsed PDF, `read_pdf_content` succeeds
and returns exactly the order-preserving concatenation of the per-page
texts, a page with no extractable text contributing the empty string; in
particular a PDF all of whose pages yield no text extracts to the empty
string, which is a success, not an error. -/
theorem read_pdf_content_concat (pages : List (Option String)) :
    AIChemist.read_pdf_content (Except.ok pages) =
      Except.ok (String.join (pages.map (fun page => page.getD ""))) ∧
    AIChemist.read_pdf_content
        (Except.ok (List.replicate pages.length (none : Option String))) =
      Except.ok "" := by
  constructor
  · simp [AIChemist.read_pdf_content, String.join, List.foldl_map]
  · simp [AIChemist.read_pdf_content, foldl_replicate_none]

/-- Claim C4. For Document modality with user text U and non-empty extracted
text E, the prompt submitted to the backend is the instruction template,
then the user-input section holding U, then the section labeled
"Reference Document Content:" holding E, in that order. -/
theorem document_prompt_order (U E : String) (h : E ≠ "") :
    AIChemist.handler_call AIChemist.InputType.pdf U E none =
      AIChemist.BackendCall.textOnly
        (AIChemist.CHEM_PROMPT ++ "\n\nUser Input: " ++ U ++
          "\n\nReference Document Content:\n" ++ E) := by
  simp [AIChemist.handler_call, AIChemist.gemini_call, h,
    AIChemist.combined_input, AIChemist.full_prompt]

/-- Witness for C4 at a concrete input. -/
theorem document_prompt_order_witness :
    AIChemist.handler_call AIChemist.InputType.pdf "u" "doc" none =
      AIChemist.BackendCall.textOnly
        (AIChemist.CHEM_PROMPT ++ "\n\nUser Input: " ++ "u" ++
          "\n\nReference Document Content:\n" ++ "doc") :=
  document_prompt_order "u" "doc" (by decide)

set_option maxRecDepth 8000 in
/-- Claim C5. Prompt assembly is total (a Lean function, it never fails) and
always yields a non-empty prompt; with empty user input the prompt is
exactly the instruction template followed by the empty user-input
section. -/
theorem full_prompt_nonempty (U : String) :
    AIChemist.full_prompt U ≠ "" ∧
    AIChemist.full_prompt "" = AIChemist.CHEM_PROMPT ++ "\n\nUser Input: " := by
  constructor
  · intro h
    have h1 : (AIChemist.full_prompt U).length = 0 := by rw [h]; rfl
    have h2 : (AIChemist.full_prompt U).length =
        AIChemist.CHEM_PROMPT.length + ("\n\nUser Input: ".length + U.length) := by
      simp [AIChemist.full_prompt, Nat.add_assoc]
    have h3 : AIChemist.CHEM_PROMPT.length ≠ 0 := by decide
    omega
  · simp [AIChemist.full_prompt]

/-- Claim C6. On a successful backend call, `get_gemini_response` returns
the text field of the backend response verbatim, with no post-processing or
modification. -/
theorem response_text_verbatim (model : AIChemist.Backend)
    (input_text : String) (pdf_content : Option String)
    (image : Option AIChemist.Img) (r : AIChemist.GenResponse)
    (h : model (AIChemist.gemini_call input_text pdf_content image) =
      Except.ok r) :
    AIChemist.get_gemini_response model input_text pdf_content image =
      Except.ok r.text := by
  simp [AIChemist.get_gemini_response, h, Except.map]

/-- Witness for C6 at a concrete input: a backend answering "ok" makes
`get_gemini_response` return exactly "ok". -/
theorem response_text_verbatim_witness :
    AIChemist.get_gemini_response AIChemist.constBackend "p" none none =
      Except.ok "ok" :=
  response_text_verbatim AIChemist.constBackend "p" none none ⟨"ok"⟩ rfl

/-- Claim C7, counterexample. The claim says every error raised anywhere in
the pipeline, extraction included, is caught at the single top level and
converted into a user-visible message. But `read_pdf_content` runs in the
input-collection section (app.py line 135), OUTSIDE the try/except of the
button handler (line 146): a PDF whose parsing fails raises an exception
that escapes the script uncaught instead of being displayed as an
"⚠️ Error: ..." message. -/
theorem pdf_parse_error_escapes :
    AIChemist.run_app AIChemist.constBackend AIChemist.InputType.pdf ""
        none (some (Except.error "EOF marker not found")) 0.7 500 =
      Except.error "EOF marker not found" ∧
    (AIChemist.run_app AIChemist.constBackend AIChemist.InputType.pdf ""
        none (some (Except.error "EOF marker not found")) 0.7 500).isOk =
      false :=
  ⟨rfl, rfl⟩

/-- Claim C7, amended. Every error raised inside the generate button handler
(prompt assembly and the backend generation call) is caught by its
try/except and converted into the single displayed message
"⚠️ Error: " followed by the underlying message verbatim; the handler
submits exactly one backend call, so nothing is retried, and the handler
always returns a displayed value (the run does not terminate). Errors from
PDF extraction and image decoding arise during input collection, outside
this handler, and are not caught by it. -/
theorem handler_errors_caught (model : AIChemist.Backend)
    (input_type : AIChemist.InputType) (user_input pdf_content : String)
    (image : Option AIChemist.Img) (e : String)
    (h : model (AIChemist.handler_call input_type user_input pdf_content
      image) = Except.error e) :
    AIChemist.generate_handler model input_type user_input pdf_content image =
      AIChemist.Displayed.errorMsg ("⚠️ Error: " ++ e) ∧
    AIChemist.handler_calls input_type user_input pdf_content image =
      [AIChemist.handler_call input_type user_input pdf_content image] := by
  refine ⟨?_, rfl⟩
  cases input_type <;>
    simp [AIChemist.handler_call] at h <;>
    simp [AIChemist.generate_handler, AIChemist.get_gemini_response, h,
      Except.map]

/-- Witness for C7 at a concrete input: a backend raising "boom" makes the
handler display the error banner with the message preserved verbatim. -/
theorem handler_errors_caught_witness :
    AIChemist.generate_handler AIChemist.failBackend AIChemist.InputType.text
        "" "" none =
      AIChemist.Displayed.errorMsg ("⚠️ Error: " ++ "boom") ∧
    AIChemist.handler_calls AIChemist.InputType.text "" "" none =
      [AIChemist.handler_call AIChemist.InputType.text "" "" none] :=
  handler_errors_caught AIChemist.failBackend AIChemist.InputType.text
    "" "" none "boom" rfl

/-- Claim C8. Prompt assembly is a pure function of its inputs: two
assemblies with identical user text and identical extracted document text
(the instruction template is the fixed constant) yield byte-identical
prompt strings, both for the base prompt and for the document-merged
prompt. -/
theorem prompt_assembly_deterministic (U1 U2 E1 E2 : String)
    (hU : U1 = U2) (hE : E1 = E2) :
    AIChemist.full_prompt U1 = AIChemist.full_prompt U2 ∧
    AIChemist.combined_input (AIChemist.full_prompt U1) E1 =
      AIChemist.combined_input (AIChemist.full_prompt U2) E2 := by
  subst hU
  subst hE
  exact ⟨rfl, rfl⟩

/-- Witness for C8 at a concrete input. -/
theorem prompt_assembly_deterministic_witness :
    AIChemist.full_prompt "a" = AIChemist.full_prompt "a" ∧
    AIChemist.combined_input (AIChemist.full_prompt "a") "e" =
      AIChemist.combined_input (AIChemist.full_prompt "a") "e" :=
  prompt_assembly_deterministic "a" "a" "e" "e" rfl rfl

/-- Claim C9. The temperature and max-token values collected in the Advanced
Settings expander are never forwarded to the backend: two runs differing
only in those two values display the same result and submit the identical
list of backend calls. -/
theorem advanced_settings_not_forwarded (model : AIChemist.Backend)
    (input_type : AIChemist.InputType) (text_area : String)
    (uploaded_image : Option AIChemist.ImgFile)
    (uploaded_pdf : Option AIChemist.PdfFile)
    (t1 t2 : Rat) (m1 m2 : Nat) :
    AIChemist.run_app model input_type text_area uploaded_image uploaded_pdf
        t1 m1 =
      AIChemist.run_app model input_type text_area uploaded_image uploaded_pdf
        t2 m2 ∧
    AIChemist.run_calls input_type text_area uploaded_image uploaded_pdf
        t1 m1 =
      AIChemist.run_calls input_type text_area uploaded_image uploaded_pdf
        t2 m2 :=
  ⟨rfl, rfl⟩

/-- Claim C10. When both a truthy image handle and non-empty document text
are supplied to `get_gemini_response`, the image branch wins: the call is
the multimodal one, identical to the call with no document text at all, so
the document text is silently dropped and never merged into the prompt. -/
theorem image_precedence_over_doc (input_text E : String)
    (img : AIChemist.Img) (h : E ≠ "") :
    AIChemist.gemini_call input_text (some E) (some img) =
      AIChemist.BackendCall.multimodal input_text img ∧
    AIChemist.gemini_call input_text (some E) (some img) =
      AIChemist.gemini_call input_text none (some img) :=
  ⟨rfl, rfl⟩

/-- Witness for C10 at a concrete input. -/
theorem image_precedence_over_doc_witness :
    AIChemist.gemini_call "p" (some "doc") (some ⟨0⟩) =
      AIChemist.BackendCall.multimodal "p" ⟨0⟩ ∧
    AIChemist.gemini_call "p" (some "doc") (some ⟨0⟩) =
      AIChemist.gemini_call "p" none (some ⟨0⟩) :=
  image_precedence_over_doc "p" "doc" ⟨0⟩ (by decide)

end AIChemist
